import Mathlib

/-!
Verification development for the rendering core of `rpiDisplay`
(`display-master/modules/src/Components.py`).

The embedding below translates the Python classes into plain Lean data and
functions:

* integer pixel coordinates become `Int × Int`;
* NumPy float arithmetic (slopes, ellipse masks, scroll positions) becomes
  exact rational arithmetic over `ℚ` — the constants `0.05`, `-0.99`, `0.5`
  are taken at their decimal face value;
* Python sets of coordinate tuples become lists whose membership is the
  property of interest (Python's `set(...)` deduplication is modelled with
  `List.dedup`);
* fallible constructors (`raise ValueError`) and fallible attribute/index
  access (`AttributeError`, `IndexError`) become `Except String`;
* the external font/text collaborator (`graphics.DrawText`,
  `Font.CharacterWidth`) is modelled by an explicit per-character advance
  function and by a `measuredLen` field carrying the collaborator's reported
  rendered width; filesystem font-path validation is elided.

`PrimitiveComponent.rotate` computes with IEEE-double trigonometry.  Its
embedding `rotatePts` is exact on the quarter-turn family (angles that are
multiples of 90 degrees), where the doubles produced by `np.cos`/`np.sin`
round back to the exact integers used here; every theorem below only ever
evaluates the rotation at 0 or 360 degrees, or does not depend on the rotated
values at all.
-/

abbrev Pt := Int × Int

abbrev Color := Int × Int × Int

/-- Embedding of `np.arange(lo, hi)` over integers: `[lo, lo+1, ..., hi-1]`
(empty when `hi ≤ lo`). -/
def rangeInt (lo hi : Int) : List Int :=
  (List.range (hi - lo).toNat).map (fun (i : Nat) => lo + (i : Int))

/-- Row-major list of the grid cells `(gx, gy)` with `0 ≤ gx < w`,
`0 ≤ gy < h`, as `np.argwhere` enumerates an `np.ogrid`-shaped mask. -/
def gridPts (w h : Int) : List Pt :=
  (rangeInt 0 w).flatMap (fun gx => (rangeInt 0 h).map (fun gy => (gx, gy)))

/-- Is an `Except` computation a success?  (Used to express that a Python
constructor returned an object rather than raising.) -/
def isOkE {α : Type} (e : Except String α) : Bool :=
  match e with
  | .ok _ => true
  | .error _ => false

/-- Exact cosine of `deg` degrees on the quarter-turn grid; `deg % 360` is
Lean's `Int.emod`, always in `[0, 360)`.  For angles that are not multiples
of 90 the source's value is irrational and is not modelled (no theorem below
uses such an angle). -/
def cosDegQ (deg : Int) : Int :=
  if deg % 360 = 0 then 1
  else if deg % 360 = 90 then 0
  else if deg % 360 = 180 then -1
  else if deg % 360 = 270 then 0
  else 0

/-- Exact sine of `deg` degrees on the quarter-turn grid; see `cosDegQ`. -/
def sinDegQ (deg : Int) : Int :=
  if deg % 360 = 0 then 0
  else if deg % 360 = 90 then 1
  else if deg % 360 = 180 then 0
  else if deg % 360 = 270 then -1
  else 0

/-- One point through `PrimitiveComponent.rotate`'s pipeline: translate by
`(-px, -py)`, multiply by `[[cos, -sin], [sin, cos]]` transposed (acting on a
row vector), translate back, `np.round`.  On the quarter-turn grid the result
is exactly integral, so the rounding is the identity. -/
def rotPt (px py deg : Int) (p : Pt) : Pt :=
  let tx := p.1 - px
  let ty := p.2 - py
  (px + cosDegQ deg * tx - sinDegQ deg * ty,
   py + sinDegQ deg * tx + cosDegQ deg * ty)

/-- Embedding of `PrimitiveComponent.rotate`: the source returns the input
object untouched when `degrees == 0`, and otherwise returns
`set(map(tuple, np.round(...)))` — here the deduplicated list of rotated
points.  Tuple/ndarray inputs (ordered, possibly with duplicates) and set
inputs are both modelled as lists. -/
def rotatePts (px py : Int) (pts : List Pt) (degrees : Int) : List Pt :=
  if degrees = 0 then pts
  else (pts.map (rotPt px py degrees)).dedup

/-- The attributes `PrimitiveComponent.__init__` stores before the subclass
point getters run. -/
structure PrimBase where
  x : Int
  y : Int
  width : Int
  height : Int
  fill_color : Option Color
  stroke_color : Option Color
  stroke_weight : Int
  rotation : Int
deriving DecidableEq, Repr

/-- All three channels of a color lie in `[0, 255]`. -/
def channelsOk (c : Color) : Bool :=
  decide (0 ≤ c.1 ∧ c.1 ≤ 255 ∧ 0 ≤ c.2.1 ∧ c.2.1 ≤ 255 ∧ 0 ≤ c.2.2 ∧ c.2.2 ≤ 255)

/-- The per-color validation loop of `PrimitiveComponent.__init__` (the
`len(colorValue) != 3` check is enforced by the `Color` type itself). -/
def checkColor (c : Option Color) : Except String Unit :=
  match c with
  | none => .ok ()
  | some col =>
    if channelsOk col then .ok ()
    else .error "Color values must be in [0,255]"

/-- Embedding of `PrimitiveComponent.__init__`: dimension check, fill then
stroke color checks, then the stroke-weight rules (`stroke_weight := 0` when
no stroke color; otherwise `0 ≤ weight ≤ height // 2`, with Python's floor
division `//` as `Int.fdiv`).  An error models `raise ValueError`, after
which no object exists. -/
def mkPrimitiveComponent (x y w h : Int) (fill stroke : Option Color)
    (weight angle : Int) : Except String PrimBase :=
  if w ≤ 0 ∨ h ≤ 0 then .error "Dimensions must be greater than 0!"
  else
    match checkColor fill with
    | .error e => .error e
    | .ok _ =>
      match checkColor stroke with
      | .error e => .error e
      | .ok _ =>
        match stroke with
        | none => .ok ⟨x, y, w, h, fill, none, 0, angle⟩
        | some c =>
          if weight < 0 then .error "Stroke weight cannot be negative"
          else if weight > Int.fdiv h 2 then
            .error "Stroke weight cannot be greater than half the height"
          else .ok ⟨x, y, w, h, fill, some c, weight, angle⟩

/-- Embedding of `Rect.getFillPts`: the inset rectangle built by
`np.meshgrid` (y-major order) and passed through the rotation; empty when
`fill_color` is `None` (the only falsy value a validated color can take). -/
def rectFillPts (b : PrimBase) : List Pt :=
  match b.fill_color with
  | none => []
  | some _ =>
    let fillX := b.x + b.stroke_weight
    let fillY := b.y + b.stroke_weight
    let fillW := b.width - 2 * b.stroke_weight
    let fillH := b.height - 2 * b.stroke_weight
    rotatePts b.x b.y
      ((rangeInt fillY (fillY + fillH)).flatMap (fun py =>
        (rangeInt fillX (fillX + fillW)).map (fun px => (px, py))))
      b.rotation

/-- Embedding of `Rect.getStrokePts`: full-width top/bottom bands of height
`stroke_weight`, plus left/right bands over the remaining height, rotated. -/
def rectStrokePts (b : PrimBase) : List Pt :=
  match b.stroke_color with
  | none => []
  | some _ =>
    let horizX := rangeInt b.x (b.x + b.width)
    let topY := rangeInt b.y (b.y + b.stroke_weight)
    let bottomY := rangeInt (b.y + b.height - b.stroke_weight) (b.y + b.height)
    let horizPts := (topY ++ bottomY).flatMap (fun py => horizX.map (fun px => (px, py)))
    let leftX := rangeInt b.x (b.x + b.stroke_weight)
    let rightX := rangeInt (b.x + b.width - b.stroke_weight) (b.x + b.width)
    let vertY := rangeInt (b.y + b.stroke_weight) (b.y + b.height - b.stroke_weight)
    let vertPts := vertY.flatMap (fun py => (leftX ++ rightX).map (fun px => (px, py)))
    rotatePts b.x b.y (horizPts ++ vertPts) b.rotation

/-- Mask for the outer (stroke ∪ fill) region of `Ellipse.getAllPts`:
`((gx-cx)/a)^2 + ((gy-cy)/b)^2 ≤ 1 + 0.05` in exact rationals. -/
def ellipseOuterMask (b : PrimBase) (p : Pt) : Bool :=
  let ctrX : ℚ := (b.x : ℚ) + (b.width : ℚ) / 2
  let ctrY : ℚ := (b.y : ℚ) + (b.height : ℚ) / 2
  let axisA : ℚ := (b.width : ℚ) / 2
  let axisB : ℚ := (b.height : ℚ) / 2
  decide ((((p.1 : ℚ) - ctrX) / axisA) ^ 2 + (((p.2 : ℚ) - ctrY) / axisB) ^ 2
    ≤ 1 + 5 / 100)

/-- Mask for the inner (fill) region of `Ellipse.getAllPts`: the same
inequality with both axes reduced by `stroke_weight`. -/
def ellipseInnerMask (b : PrimBase) (p : Pt) : Bool :=
  let ctrX : ℚ := (b.x : ℚ) + (b.width : ℚ) / 2
  let ctrY : ℚ := (b.y : ℚ) + (b.height : ℚ) / 2
  let axisA : ℚ := (b.width : ℚ) / 2 - (b.stroke_weight : ℚ)
  let axisB : ℚ := (b.height : ℚ) / 2 - (b.stroke_weight : ℚ)
  decide ((((p.1 : ℚ) - ctrX) / axisA) ^ 2 + (((p.2 : ℚ) - ctrY) / axisB) ^ 2
    ≤ 1 + 5 / 100)

/-- The `np.argwhere(strokeMask)` scan of `Ellipse.getAllPts` over the
default 32×32 canvas (`MATRIX_ROWS`/`MATRIX_COLS` unset). -/
def ellipseOuterPts (b : PrimBase) : List Pt :=
  (gridPts 32 32).filter (fun p => ellipseOuterMask b p)

/-- The fill subset: outer scan points that also satisfy the inner mask,
then rotated (`Ellipse.getAllPts`, `fillPts`). -/
def ellipseFillPts (b : PrimBase) : List Pt :=
  rotatePts b.x b.y ((ellipseOuterPts b).filter (fun p => ellipseInnerMask b p))
    b.rotation

/-- `Ellipse.getAllPts` final stroke set: the rotated outer set minus the
fill set (`set(...) - self.fill_pts`). -/
def ellipseStrokePts (b : PrimBase) : List Pt :=
  (rotatePts b.x b.y (ellipseOuterPts b) b.rotation).filter
    (fun p => decide (p ∉ ellipseFillPts b))

/-- Fill mask of `RightTriangle.getFillPts` in shape-local grid coordinates:
above the hypotenuse shifted by `stroke_weight - 0.99`, right of the left
stroke band, above the bottom stroke band.  `slope = height / width` in
exact rationals. -/
def triFillMask (b : PrimBase) (p : Pt) : Bool :=
  let slope : ℚ := (b.height : ℚ) / (b.width : ℚ)
  decide ((p.2 : ℚ) - slope * (p.1 : ℚ) ≥ (b.stroke_weight : ℚ) + (-99) / 100)
    && decide (p.1 ≥ b.stroke_weight)
    && decide (p.2 ≤ b.height - b.stroke_weight)

/-- Stroke mask of `RightTriangle.getStrokePts` in shape-local grid
coordinates: the union of the hypotenuse, left and bottom bands, each cut by
the outer half-plane (`OUTER_SHIFT = stroke_weight - 1`, `TOLERANCE = 0.5`). -/
def triStrokeMask (b : PrimBase) (p : Pt) : Bool :=
  let slope : ℚ := (b.height : ℚ) / (b.width : ℚ)
  let sw : ℚ := (b.stroke_weight : ℚ)
  let outerShift : ℚ := sw - 1
  let d : ℚ := (p.2 : ℚ) - slope * (p.1 : ℚ)
  let maskOuter := decide (d > -sw + outerShift)
  let maskHyp := maskOuter && decide (d ≤ 0 + outerShift + 1 / 2)
    && decide (p.2 ≥ 0) && decide (p.2 ≤ b.height)
  let maskLeft := decide (p.1 ≥ 0) && decide (p.1 < b.stroke_weight)
    && decide (p.2 ≤ b.height) && maskOuter
  let maskBottom := decide (p.2 ≤ b.height) && decide (p.2 > b.height - b.stroke_weight)
    && decide (p.1 ≥ 0) && maskOuter
  maskHyp || maskLeft || maskBottom

/-- `RightTriangle.getFillPts`: scan the `(canvasW-1)×(canvasH-1)` grid
(31×31 with default environment), filter by the fill mask, translate by the
anchor, rotate; empty when there is no fill color. -/
def triFillPts (b : PrimBase) : List Pt :=
  match b.fill_color with
  | none => []
  | some _ =>
    rotatePts b.x b.y
      (((gridPts 31 31).filter (fun p => triFillMask b p)).map
        (fun p => (p.1 + b.x, p.2 + b.y)))
      b.rotation

/-- `RightTriangle.getStrokePts`: the analogous scan with the stroke mask. -/
def triStrokePts (b : PrimBase) : List Pt :=
  match b.stroke_color with
  | none => []
  | some _ =>
    rotatePts b.x b.y
      (((gridPts 31 31).filter (fun p => triStrokeMask b p)).map
        (fun p => (p.1 + b.x, p.2 + b.y)))
      b.rotation

/-- A fully constructed primitive: the validated base attributes plus the
point sets the subclass getters cached at construction time. -/
structure ShapeState where
  base : PrimBase
  fill_pts : List Pt
  stroke_pts : List Pt
deriving DecidableEq, Repr

/-- `Rect(...)`: base validation, then `getFillPts`/`getStrokePts`. -/
def mkRect (x y w h : Int) (fill stroke : Option Color) (weight angle : Int) :
    Except String ShapeState :=
  (mkPrimitiveComponent x y w h fill stroke weight angle).map
    (fun b => ⟨b, rectFillPts b, rectStrokePts b⟩)

/-- `Ellipse(...)`: base validation, then `getAllPts`. -/
def mkEllipse (x y w h : Int) (fill stroke : Option Color) (weight angle : Int) :
    Except String ShapeState :=
  (mkPrimitiveComponent x y w h fill stroke weight angle).map
    (fun b => ⟨b, ellipseFillPts b, ellipseStrokePts b⟩)

/-- `RightTriangle(...)`: base validation, then the triangle getters. -/
def mkRightTriangle (x y w h : Int) (fill stroke : Option Color)
    (weight angle : Int) : Except String ShapeState :=
  (mkPrimitiveComponent x y w h fill stroke weight angle).map
    (fun b => ⟨b, triFillPts b, triStrokePts b⟩)

/-- The pixels `Line.draw` writes.  A `Line` stores endpoints, a stroke color
(validated in `[0,255]`) and a weight `≥ 1`. -/
structure LineState where
  x0 : Int
  y0 : Int
  x1 : Int
  y1 : Int
  stroke_color : Color
  stroke_weight : Int
deriving DecidableEq, Repr

/-- `Line.__init__`: color channels in range, weight at least 1. -/
def mkLine (startX startY endX endY : Int) (stroke : Color) (weight : Int) :
    Except String LineState :=
  if channelsOk stroke = false then .error "Color values must be in [0,255]"
  else if weight < 1 then .error "Stroke weight cannot be less than 1"
  else .ok ⟨startX, startY, endX, endY, stroke, weight⟩

/-- `(-1) ** wt` for a loop counter `wt`. -/
def altSign (wt : Nat) : Int :=
  if wt % 2 = 0 then 1 else -1

/-- Truncation toward zero, as `np.trunc`. -/
def ratTrunc (q : ℚ) : Int :=
  if 0 ≤ q then Int.floor q else Int.ceil q

/-- Embedding of `Line.draw` as the list of pixels written, in write order.
The Python body divides by `x1 - x0` inside `try` and catches the resulting
`ZeroDivisionError` to draw a vertical line instead; that control flow is the
`x1 - x0 = 0` branch here, so `draw` never propagates an error.  The vertical
branch offsets each stroke iteration's column by `wt * (-1) ** wt`; the
sloped branch steps `x` and writes `y = trunc(m*x + y0 + ceil(wt/2)*(-1)**wt)`
in exact rational arithmetic. -/
def lineDraw (st : LineState) : List Pt :=
  if st.x1 - st.x0 = 0 then
    (List.range st.stroke_weight.toNat).flatMap (fun wt =>
      let wtFactor : Int := (wt : Int) * altSign wt
      (rangeInt (max 0 st.y0) (min 33 st.y1)).map (fun y => (st.x0 + wtFactor, y)))
  else
    let m : ℚ := ((st.y1 - st.y0 : Int) : ℚ) / ((st.x1 - st.x0 : Int) : ℚ)
    (List.range st.stroke_weight.toNat).flatMap (fun wt =>
      let wtFactor : ℚ := (Int.ceil ((wt : ℚ) / 2) : ℚ) * (altSign wt : ℚ)
      (rangeInt (max 0 st.x0) (min 65 st.x1)).map (fun x =>
        (x, ratTrunc (m * (x : ℚ) + (st.y0 : ℚ) + wtFactor))))

/-- Modelled from the spec: the specification's description of the vertical
branch of `Line.draw` — "special-case a vertical line (undefined slope) by
stepping `y` and offsetting `x` by `⌈stroke/2⌉` alternating left/right per
stroke-width iteration", i.e. per-iteration offset `⌈wt/2⌉ * (-1) ** wt`,
matching the sloped branch's pattern.  Defined only for comparison with the
source's `lineDraw`. -/
def lineDrawSpecVertical (st : LineState) : List Pt :=
  if st.x1 - st.x0 = 0 then
    (List.range st.stroke_weight.toNat).flatMap (fun wt =>
      let wtFactor : Int := (((wt : Int) + 1) / 2) * altSign wt
      (rangeInt (max 0 st.y0) (min 33 st.y1)).map (fun y => (st.x0 + wtFactor, y)))
  else lineDraw st

/-- The attributes of `Text`: the construction-time x (`x_og`), the current
draw x, the content and the alignment flag.  The font resource is external
and is represented by a per-character advance function passed to the
operations (`Font.CharacterWidth`); path validation of the `.bdf` file is
elided. -/
structure TextState where
  x_og : Int
  x : Int
  y : Int
  text : String
  right_aligned : Bool
deriving DecidableEq, Repr

/-- Total printed length of a string: the sum of per-character advances,
as accumulated by `Text.adjustAlignment` and as returned by the external
`graphics.DrawText`. -/
def textWidth (cw : Char → Int) (s : String) : Int :=
  (s.toList.map cw).sum

/-- `Text.adjustAlignment`: when right-aligned, reposition `x` to
`x_og - totalLen`; otherwise leave the state alone. -/
def adjustAlignment (cw : Char → Int) (st : TextState) : TextState :=
  if st.right_aligned then {st with x := st.x_og - textWidth cw st.text} else st

/-- `Text.__init__` (font filesystem checks elided): store coordinates and
content, then `adjustAlignment` once. -/
def mkText (cw : Char → Int) (x y : Int) (text : String) (rightAlign : Bool) :
    TextState :=
  adjustAlignment cw { x_og := x, x := x, y := y, text := text, right_aligned := rightAlign }

/-- `Text.draw`: draw at the stored `x` and return the rendered pixel length
reported by the collaborator.  It does not touch `x`. -/
def textDraw (cw : Char → Int) (st : TextState) : Int × Int :=
  (st.x, textWidth cw st.text)

/-- Modelled from the spec: "if `rightAligned`, first recompute `anchor.x` as
`original_x − Σ(character_advance)` over `content` ...; then delegate to the
font collaborator's draw primitive at `(anchor.x, anchor.y)` and return the
total rendered pixel length" — i.e. a draw that re-aligns on every call.
Defined only for comparison with the source's `textDraw`. -/
def textDrawSpecRealign (cw : Char → Int) (st : TextState) : Int × Int :=
  textDraw cw (adjustAlignment cw st)

/-- `DateTimeDisplay.loop`: overwrite the content with the freshly formatted
time string (the `datetime.now().strftime` result is the external parameter
`newText`), re-align, then draw. -/
def dtdLoop (cw : Char → Int) (newText : String) (st : TextState) :
    TextState × (Int × Int) :=
  let st1 := adjustAlignment cw {st with text := newText}
  (st1, textDraw cw st1)

/-- The attributes of `ScrollingText`: `Text`'s fields that matter to the
animator plus the scroll state.  `rate` and `scroll_index` are rationals
because the source stores floats there (`canvas.width / self.rate` is float
division); `length` is `none` until a draw records the collaborator's
measured width `measuredLen` of `text`. -/
structure ScrollState where
  x : Int
  y : Int
  text : String
  rate : ℚ
  mode : Int
  delay : Int
  spacing : Int
  scroll_index : ℚ
  delay_count : Int
  direction_mult : Int
  length : Option Int
  measuredLen : Int
deriving DecidableEq, Repr

/-- `ScrollingText.ONCE` -/
def modeONCE : Int := 0

/-- `ScrollingText.LOOP` -/
def modeLOOP : Int := 1

/-- `ScrollingText.BOUNCE` -/
def modeBOUNCE : Int := 2

/-- `ScrollingText.__init__` (the inherited `Text` filesystem checks elided):
validates the scroll mode, then initialises the counters. -/
def mkScrollingText (x y : Int) (text : String) (rate : ℚ)
    (mode delay spacing measuredLen : Int) : Except String ScrollState :=
  if mode = modeONCE ∨ mode = modeLOOP ∨ mode = modeBOUNCE then
    .ok { x := x, y := y, text := text, rate := rate, mode := mode,
          delay := delay, spacing := spacing, scroll_index := 0,
          delay_count := 0, direction_mult := 1, length := none,
          measuredLen := measuredLen }
  else .error "Scrolling mode must be ScrollingText.ONCE, ScrollingText.LOOP, or ScrollingText.BOUNCE"

/-- Read `self.length`; an unset attribute is Python's `AttributeError`. -/
def getLenE (st : ScrollState) : Except String Int :=
  match st.length with
  | none => .error "AttributeError"
  | some L => .ok L

/-- `ScrollingText.draw`: delegate to `Text.draw` (drawing at `x` and
obtaining the measured length), record it in `self.length`, and advance
`scroll_index` by one.  Returns the new state and the length. -/
def scrollDraw (st : ScrollState) : ScrollState × Int :=
  ({st with length := some st.measuredLen, scroll_index := st.scroll_index + 1},
   st.measuredLen)

/-- `np.sign` over the rationals. -/
def qsign (q : ℚ) : ℚ :=
  if q > 0 then 1 else if q < 0 then -1 else 0

/-- The parenthesised hold condition of `ScrollingText.loop`:
`scroll_index == 0 or (mode == BOUNCE and newPos + length <= canvas.width)`,
with Python's short-circuit evaluation — `self.length` is only read (and can
only raise) when the first disjunct is false and the mode is BOUNCE. -/
def holdWindowE (W : Int) (st : ScrollState) (newPos : ℚ) : Except String Bool :=
  if st.scroll_index = 0 then .ok true
  else if st.mode = modeBOUNCE then
    (getLenE st).map (fun L => decide (newPos + (L : ℚ) ≤ (W : ℚ)))
  else .ok false

/-- ONCE-mode boundary test of `ScrollingText.loop`:
`(rate < 0 and newPos + length < 0) or (rate > 0 and newPos > canvas.width)`,
short-circuited as in Python. -/
def onceTest (W : Int) (st : ScrollState) (newPos : ℚ) : Except String Bool :=
  if st.rate < 0 then (getLenE st).map (fun L => decide (newPos + (L : ℚ) < 0))
  else if st.rate > 0 then .ok (decide (newPos > (W : ℚ)))
  else .ok false

/-- LOOP-mode boundary test of `ScrollingText.loop`: has the second copy
returned to the origin. -/
def loopTest (st : ScrollState) (newPos : ℚ) : Except String Bool :=
  if st.rate < 0 then
    (getLenE st).map (fun L => decide (newPos + ((L : ℚ) + (st.spacing : ℚ)) < 0))
  else if st.rate > 0 then
    (getLenE st).map (fun L => decide (newPos - ((L : ℚ) + (st.spacing : ℚ)) > 0))
  else .ok false

/-- BOUNCE-mode boundary test of `ScrollingText.loop`: with
`direction = rate * direction_mult`, has the text reached the far bound
(`newPos + length < canvas.width` going left, `newPos > x` going right). -/
def bounceTest (st : ScrollState) (newPos : ℚ) (W : Int) : Except String Bool :=
  let direction := st.rate * (st.direction_mult : ℚ)
  if direction < 0 then (getLenE st).map (fun L => decide (newPos + (L : ℚ) < (W : ℚ)))
  else if direction > 0 then .ok (decide (newPos > (st.x : ℚ)))
  else .ok false

/-- The tail of `ScrollingText.loop` once the hold check has fallen through
(`delay_count` already reset to 0 in `st`): mode-specific boundary logic,
the draw of the frame (LOOP also draws the second copy), and the
`scroll_index += 1 * direction_mult` advance.  Returns the new state and the
x-positions passed to `graphics.DrawText` this call. -/
def scrollAdvance (W : Int) (st : ScrollState) (newPos : ℚ) :
    Except String (ScrollState × List ℚ) :=
  if st.mode = modeONCE then
    match onceTest W st newPos with
    | .error e => .error e
    | .ok hit =>
      let idx0 : ℚ := if hit then (W : ℚ) / st.rate else st.scroll_index
      .ok ({st with scroll_index := idx0 + (st.direction_mult : ℚ)}, [newPos])
  else if st.mode = modeLOOP then
    match loopTest st newPos with
    | .error e => .error e
    | .ok hit =>
      if hit then
        let st1 := {st with scroll_index := 0}
        .ok ((scrollDraw st1).1, [(st1.x : ℚ)])
      else
        match getLenE st with
        | .error e => .error e
        | .ok L =>
          .ok ({st with scroll_index := st.scroll_index + (st.direction_mult : ℚ)},
               [newPos, newPos - ((L : ℚ) + (st.spacing : ℚ)) * qsign st.rate])
  else
    match bounceTest st newPos W with
    | .error e => .error e
    | .ok hit =>
      let dm : Int := if hit then st.direction_mult * (-1) else st.direction_mult
      .ok ({st with direction_mult := dm, scroll_index := st.scroll_index + (dm : ℚ)},
           [newPos])

/-- Embedding of `ScrollingText.loop` against a canvas of width `W`: the new
state together with the x-positions drawn during the call.  Mirrors the
source exactly: the `rate == 0` shortcut delegating to `draw`, the candidate
position, the hold check (drawing at `newPos` without advancing), the
`delay_count = 0` reset, and `scrollAdvance` for the rest. -/
def scrollLoop (W : Int) (st : ScrollState) : Except String (ScrollState × List ℚ) :=
  if st.rate = 0 then .ok ((scrollDraw st).1, [(st.x : ℚ)])
  else
    let newPos : ℚ := (st.x : ℚ) + st.rate * st.scroll_index
    match holdWindowE W st newPos with
    | .error e => .error e
    | .ok hw =>
      if hw = true ∧ st.delay_count < st.delay then
        .ok ({st with delay_count := st.delay_count + 1}, [newPos])
      else
        scrollAdvance W {st with delay_count := 0} newPos

/-- State after `n` consecutive `loop` calls (propagating any raise). -/
def scrollIter (W : Int) : Nat → ScrollState → Except String ScrollState
  | 0, st => .ok st
  | n + 1, st =>
    match scrollLoop W st with
    | .error e => .error e
    | .ok r => scrollIter W n r.1

/-- The x-positions drawn by `loop` call number `n + 1` (after `n` earlier
calls), or `[]` if a call raised. -/
def drawsAtCall (W : Int) (n : Nat) (st : ScrollState) : List ℚ :=
  match scrollIter W n st with
  | .error _ => []
  | .ok s =>
    match scrollLoop W s with
    | .error _ => []
    | .ok r => r.2

/-- Python list subscript read `l[i]` with its `IndexError`.  (Negative
indices never occur in the modelled code paths.) -/
def getAtE {α : Type} (l : List α) (i : Nat) : Except String α :=
  match l[i]? with
  | none => .error "IndexError"
  | some v => .ok v

/-- Python list subscript assignment `l[i] = v` with its `IndexError`. -/
def setAtE {α : Type} (l : List α) (i : Nat) (v : α) : Except String (List α) :=
  if i < l.length then .ok (l.set i v) else .error "IndexError"

/-- The attributes of `TickerText`: the inherited scroll fields it still
uses, the message list, and the per-message bookkeeping arrays
(`msg_x = [0] * len(messages)`, `msg_len = [0] * len(messages)` at
construction).  `measuredLen` is the collaborator's rendered width of
`messages[0]`, the string the inherited `Text` state holds. -/
structure TickerState where
  x : Int
  y : Int
  rate : ℚ
  spacing : Int
  scroll_index : ℚ
  length : Option Int
  measuredLen : Int
  messages : List String
  msg_index : Int
  msg_x : List ℚ
  msg_len : List Int
  wrap : Bool
  first_idx : Int
  last_idx : Int
deriving DecidableEq, Repr

/-- `TickerText.__init__` (inherited filesystem checks elided; the
"messages must be strings" loop is enforced by the type): reads
`messages_[0]` — raising on an empty sequence — and seeds the arrays. -/
def mkTickerText (x y : Int) (messages : List String) (rate : ℚ)
    (spacing measuredLen : Int) (wrap : Bool) : Except String TickerState :=
  match messages with
  | [] => .error "IndexError"
  | _ :: _ =>
    .ok { x := x, y := y, rate := rate, spacing := spacing, scroll_index := 0,
          length := none, measuredLen := measuredLen, messages := messages,
          msg_index := 0, msg_x := List.replicate messages.length 0,
          msg_len := List.replicate messages.length 0, wrap := wrap,
          first_idx := 0, last_idx := 0 }

/-- The inherited `ScrollingText.draw` as seen by `TickerText.draw`:
renders `messages[0]` at `x`, records the measured length, advances
`scroll_index`. -/
def tickerSuperDraw (st : TickerState) : TickerState × Int :=
  ({st with length := some st.measuredLen, scroll_index := st.scroll_index + 1},
   st.measuredLen)

/-- Embedding of `TickerText.draw`:
`msg_len[0] = super().draw(canvas)`, `msg_x[0] += rate`,
`msg_x[1] = msg_x[0] + msg_len[0] + spacing`, returning `msg_len[0]`.
Each subscript carries Python's `IndexError` semantics. -/
def tickerDraw (st : TickerState) : Except String (TickerState × Int) :=
  let d := tickerSuperDraw st
  match setAtE d.1.msg_len 0 d.2 with
  | .error e => .error e
  | .ok ml =>
    let st1 := {d.1 with msg_len := ml}
    match getAtE st1.msg_x 0 with
    | .error e => .error e
    | .ok x0 =>
      match setAtE st1.msg_x 0 (x0 + st1.rate) with
      | .error e => .error e
      | .ok mx =>
        let st2 := {st1 with msg_x := mx}
        match getAtE st2.msg_x 0 with
        | .error e => .error e
        | .ok x0' =>
          match getAtE st2.msg_len 0 with
          | .error e => .error e
          | .ok l0 =>
            match setAtE st2.msg_x 1 (x0' + (l0 : ℚ) + (st2.spacing : ℚ)) with
            | .error e => .error e
            | .ok mx1 =>
              match getAtE st2.msg_len 0 with
              | .error e => .error e
              | .ok r => .ok ({st2 with msg_x := mx1}, r)

theorem mem_rangeInt {lo hi a : Int} : a ∈ rangeInt lo hi ↔ lo ≤ a ∧ a < hi := by
  simp only [rangeInt, List.mem_map, List.mem_range]
  constructor
  · rintro ⟨i, hilt, rfl⟩
    omega
  · rintro ⟨h1, h2⟩
    exact ⟨(a - lo).toNat, by omega, by omega⟩

theorem mem_gridPts {w h : Int} {p : Pt} :
    p ∈ gridPts w h ↔ 0 ≤ p.1 ∧ p.1 < w ∧ 0 ≤ p.2 ∧ p.2 < h := by
  obtain ⟨a, b⟩ := p
  simp only [gridPts, List.mem_flatMap, List.mem_map, mem_rangeInt, Prod.mk.injEq]
  constructor
  · rintro ⟨gx, hgx, gy, hgy, rfl, rfl⟩
    exact ⟨hgx.1, hgx.2, hgy.1, hgy.2⟩
  · rintro ⟨h1, h2, h3, h4⟩
    exact ⟨a, ⟨h1, h2⟩, b, ⟨h3, h4⟩, rfl, rfl⟩

theorem isOkE_map {α β : Type} (f : α → β) (e : Except String α) :
    isOkE (e.map f) = isOkE e := by
  cases e <;> rfl

theorem rotatePts_at_zero (px py : Int) (pts : List Pt) : rotatePts px py pts 0 = pts := by
  simp [rotatePts]

theorem rectFillPts_bounds (b : PrimBase) (hrot : b.rotation = 0) (p : Pt)
    (hf : p ∈ rectFillPts b) :
    b.x + b.stroke_weight ≤ p.1 ∧ p.1 < b.x + b.width - b.stroke_weight ∧
    b.y + b.stroke_weight ≤ p.2 ∧ p.2 < b.y + b.height - b.stroke_weight := by
  unfold rectFillPts at hf
  cases hfc : b.fill_color with
  | none => rw [hfc] at hf; simp at hf
  | some c =>
    rw [hfc, hrot, rotatePts_at_zero] at hf
    simp only [List.mem_flatMap, List.mem_map, mem_rangeInt] at hf
    obtain ⟨py, hpy, px, hpx, hpe⟩ := hf
    obtain ⟨a, bb⟩ := p
    simp only [Prod.mk.injEq] at hpe
    obtain ⟨h1, h2⟩ := hpe
    subst h1; subst h2
    simp only []
    omega

theorem rectStrokePts_bounds (b : PrimBase) (hrot : b.rotation = 0) (p : Pt)
    (hs : p ∈ rectStrokePts b) :
    (b.x ≤ p.1 ∧ p.1 < b.x + b.width ∧
      ((b.y ≤ p.2 ∧ p.2 < b.y + b.stroke_weight) ∨
       (b.y + b.height - b.stroke_weight ≤ p.2 ∧ p.2 < b.y + b.height)))
    ∨ (((b.x ≤ p.1 ∧ p.1 < b.x + b.stroke_weight) ∨
        (b.x + b.width - b.stroke_weight ≤ p.1 ∧ p.1 < b.x + b.width)) ∧
       b.y + b.stroke_weight ≤ p.2 ∧ p.2 < b.y + b.height - b.stroke_weight) := by
  unfold rectStrokePts at hs
  cases hsc : b.stroke_color with
  | none => rw [hsc] at hs; simp at hs
  | some c =>
    rw [hsc, hrot, rotatePts_at_zero] at hs
    simp only [List.mem_append, List.mem_flatMap, List.mem_map, mem_rangeInt] at hs
    obtain ⟨a, bb⟩ := p
    rcases hs with ⟨py, hpy, px, hpx, hpe⟩ | ⟨py, hpy, px, hpx, hpe⟩ <;>
      simp only [Prod.mk.injEq] at hpe <;>
      obtain ⟨h1, h2⟩ := hpe <;> subst h1 <;> subst h2 <;> simp only [] <;> omega

/-- C1 (amended): the fill and stroke point sets are disjoint for every
Ellipse — at any rotation angle, because `getAllPts` subtracts the fill set
from the rotated stroke set — and for every unrotated Rect, whose inset fill
rectangle avoids the stroke bands.  They are *not* disjoint for every
primitive: an unrotated RightTriangle can place grid cells in both sets (see
the counterexample), and rotation rounding can collide Rect cells as well. -/
theorem rect_and_ellipse_fill_stroke_disjoint :
    ∀ b : PrimBase,
      (b.rotation = 0 → ∀ p : Pt, p ∈ rectFillPts b → p ∉ rectStrokePts b)
      ∧ (∀ p : Pt, p ∈ ellipseFillPts b → p ∉ ellipseStrokePts b) := by
  intro b
  constructor
  · intro hrot p hf hs
    have h1 := rectFillPts_bounds b hrot p hf
    have h2 := rectStrokePts_bounds b hrot p hs
    omega
  · intro p hf hs
    unfold ellipseStrokePts at hs
    rw [List.mem_filter] at hs
    have := hs.2
    simp only [decide_eq_true_eq] at this
    exact this hf

/-- C1 counterexample: the unrotated `RightTriangle(w=8, h=4, weight=1)` with
both colors present is successfully constructed, yet the cell `(1, 1)` lies
in its fill set *and* in its stroke set, so the two sets intersect. -/
theorem rightTriangle_fill_stroke_overlap :
    isOkE (mkRightTriangle 0 0 8 4 (some (255, 255, 255)) (some (255, 0, 0)) 1 0) = true
    ∧ ((1, 1) : Pt) ∈ triFillPts ⟨0, 0, 8, 4, some (255, 255, 255), some (255, 0, 0), 1, 0⟩
    ∧ ((1, 1) : Pt) ∈ triStrokePts ⟨0, 0, 8, 4, some (255, 255, 255), some (255, 0, 0), 1, 0⟩ := by
  refine ⟨by decide, ?_, ?_⟩
  · unfold triFillPts
    rw [rotatePts_at_zero]
    simp only [List.mem_map, List.mem_filter]
    refine ⟨(1, 1), ⟨?_, ?_⟩, by simp⟩
    · rw [mem_gridPts]; omega
    · norm_num [triFillMask]
  · unfold triStrokePts
    rw [rotatePts_at_zero]
    simp only [List.mem_map, List.mem_filter]
    refine ⟨(1, 1), ⟨?_, ?_⟩, by simp⟩
    · rw [mem_gridPts]; omega
    · norm_num [triStrokeMask]

/-- C1 witness: the disjointness theorem applied to the concrete unrotated
`Rect(4, 4, weight 1)` at its fill cell `(1, 1)` and to the concrete
`Ellipse(16, 16, weight 2)` at its fill cell `(16, 16)`. -/
theorem rect_and_ellipse_fill_stroke_disjoint_witness :
    ((1, 1) : Pt) ∉ rectStrokePts ⟨0, 0, 4, 4, some (255, 255, 255), some (255, 0, 0), 1, 0⟩
    ∧ ((16, 16) : Pt) ∉ ellipseStrokePts ⟨8, 8, 16, 16, some (255, 255, 255), some (255, 0, 0), 2, 0⟩ := by
  constructor
  · exact (rect_and_ellipse_fill_stroke_disjoint _).1 rfl _ (by decide)
  · refine (rect_and_ellipse_fill_stroke_disjoint _).2 _ ?_
    unfold ellipseFillPts
    rw [rotatePts_at_zero]
    simp only [List.mem_filter]
    refine ⟨?_, ?_⟩
    · unfold ellipseOuterPts
      rw [List.mem_filter]
      refine ⟨?_, ?_⟩
      · rw [mem_gridPts]; omega
      · norm_num [ellipseOuterMask]
    · norm_num [ellipseInnerMask]

/-- C5 (amended): the rotation transform returns its input unchanged exactly
when the angle argument is 0 — the only case the source's `degrees == 0`
passthrough covers; `rotate(points, 0) == points` for any point collection. -/
theorem rotatePts_angle_zero_is_identity :
    ∀ (px py : Int) (pts : List Pt), rotatePts px py pts 0 = pts := by
  intro px py pts
  exact rotatePts_at_zero px py pts

/-- C5 counterexample: 360 is congruent to 0 modulo 360, but the transform
does not return its input unchanged there — the non-passthrough path returns
the *set* of rotated points, so a tuple input carrying a duplicated point
comes back collapsed to one element. -/
theorem rotatePts_360_changes_duplicated_input :
    (360 : Int) % 360 = 0
    ∧ rotatePts 0 0 [((0 : Int), (0 : Int)), (0, 0)] 360 = [(0, 0)]
    ∧ rotatePts 0 0 [((0 : Int), (0 : Int)), (0, 0)] 360 ≠ [((0 : Int), (0 : Int)), (0, 0)] := by
  refine ⟨by decide, by decide, by decide⟩

/-- C8: for the unrotated `Rect(w=4, h=4, strokeWeight=1)` with both fill and
stroke colors present, construction succeeds, the stroke point set has
exactly 12 points, the fill point set exactly 4, and the two are disjoint. -/
theorem rect4x4_weight1_counts_and_disjoint :
    isOkE (mkRect 0 0 4 4 (some (255, 255, 255)) (some (255, 0, 0)) 1 0) = true
    ∧ (rectStrokePts ⟨0, 0, 4, 4, some (255, 255, 255), some (255, 0, 0), 1, 0⟩).length = 12
    ∧ (rectFillPts ⟨0, 0, 4, 4, some (255, 255, 255), some (255, 0, 0), 1, 0⟩).length = 4
    ∧ (rectFillPts ⟨0, 0, 4, 4, some (255, 255, 255), some (255, 0, 0), 1, 0⟩).inter
        (rectStrokePts ⟨0, 0, 4, 4, some (255, 255, 255), some (255, 0, 0), 1, 0⟩) = [] := by
  refine ⟨by decide, by decide, by decide, by decide⟩

theorem mkPrimitiveComponent_rejects (x y w h : Int) (fill stroke : Option Color)
    (weight angle : Int)
    (hbad : w ≤ 0 ∨ h ≤ 0
      ∨ (∃ c, fill = some c ∧ channelsOk c = false)
      ∨ (∃ c, stroke = some c ∧ channelsOk c = false)
      ∨ (stroke ≠ none ∧ (weight < 0 ∨ Int.fdiv h 2 < weight))) :
    isOkE (mkPrimitiveComponent x y w h fill stroke weight angle) = false := by
  unfold mkPrimitiveComponent
  split
  · rfl
  · rename_i hdim
    split
    · rfl
    · rename_i u hcf
      split
      · rfl
      · rename_i u2 hcs
        split
        · exfalso
          rcases hbad with h | h | ⟨c, hc, hcc⟩ | ⟨c, hc, hcc⟩ | ⟨hs, hw⟩
          · exact hdim (Or.inl h)
          · exact hdim (Or.inr h)
          · rw [hc] at hcf; simp [checkColor, hcc] at hcf
          · simp at hc
          · exact hs rfl
        · rename_i c2
          split
          · rfl
          · split
            · rfl
            · rename_i hw1 hw2
              exfalso
              rcases hbad with h | h | ⟨c, hc, hcc⟩ | ⟨c, hc, hcc⟩ | ⟨hs, hw⟩
              · exact hdim (Or.inl h)
              · exact hdim (Or.inr h)
              · rw [hc] at hcf; simp [checkColor, hcc] at hcf
              · rw [hc] at hcs; simp [checkColor, hcc] at hcs
              · omega

/-- C7: construction-time validation fails fast.  Any primitive-shape
constructor (Rect, Ellipse, RightTriangle) signals an error — so no object is
produced — when the width or height is non-positive, when a present fill or
stroke color has a channel outside `[0, 255]`, or when a stroke color is
present and the weight is negative or exceeds `height // 2`; and
`ScrollingText` signals an error for any mode other than ONCE, LOOP, BOUNCE. -/
theorem construction_validation_fails_fast :
    (∀ (x y w h : Int) (fill stroke : Option Color) (weight angle : Int),
      (w ≤ 0 ∨ h ≤ 0
        ∨ (∃ c, fill = some c ∧ channelsOk c = false)
        ∨ (∃ c, stroke = some c ∧ channelsOk c = false)
        ∨ (stroke ≠ none ∧ (weight < 0 ∨ Int.fdiv h 2 < weight))) →
      isOkE (mkRect x y w h fill stroke weight angle) = false
      ∧ isOkE (mkEllipse x y w h fill stroke weight angle) = false
      ∧ isOkE (mkRightTriangle x y w h fill stroke weight angle) = false)
    ∧ (∀ (x y : Int) (text : String) (rate : ℚ) (mode delay spacing ml : Int),
      ¬(mode = modeONCE ∨ mode = modeLOOP ∨ mode = modeBOUNCE) →
      isOkE (mkScrollingText x y text rate mode delay spacing ml) = false) := by
  constructor
  · intro x y w h fill stroke weight angle hbad
    have hcore := mkPrimitiveComponent_rejects x y w h fill stroke weight angle hbad
    refine ⟨?_, ?_, ?_⟩
    · rw [mkRect, isOkE_map]; exact hcore
    · rw [mkEllipse, isOkE_map]; exact hcore
    · rw [mkRightTriangle, isOkE_map]; exact hcore
  · intro x y text rate mode delay spacing ml hmode
    unfold mkScrollingText
    rw [if_neg hmode]
    rfl

/-- C7 witness: the validation theorem applied to a zero-width rectangle
(rejected by all three shape constructors) and to scroll mode 5 (rejected by
the `ScrollingText` constructor). -/
theorem construction_validation_fails_fast_witness :
    isOkE (mkRect 0 0 0 4 (some (255, 255, 255)) none 1 0) = false
    ∧ isOkE (mkScrollingText 0 0 "abc" (-1) 5 0 0 10) = false :=
  ⟨(construction_validation_fails_fast.1 0 0 0 4 (some (255, 255, 255)) none 1 0
      (Or.inl (by decide))).1,
   construction_validation_fails_fast.2 0 0 "abc" (-1) 5 0 0 10 (by decide)⟩

/-- C2 (amended): a start-hold frame happens only while `scrollIndex` is
still 0, i.e. when `loop` runs with no preceding `draw`: then each call with
`delayCount < delayFrames` draws at the start position, increments
`delayCount`, and does not advance `scrollIndex`.  The caller's single
initial `draw` already advances `scrollIndex` to 1, after which (outside
BOUNCE's own window) no start-hold frame occurs. -/
theorem scrollLoop_start_hold_only_at_index_zero (W : Int) (st : ScrollState)
    (hrate : st.rate ≠ 0) (hidx : st.scroll_index = 0) (hdel : st.delay_count < st.delay) :
    scrollLoop W st = .ok ({st with delay_count := st.delay_count + 1}, [(st.x : ℚ)]) := by
  simp [scrollLoop, holdWindowE, hrate, hidx, hdel]

/-- C2 counterexample: ONCE mode, rate -1, delayFrames = 2.  After the single
initial `draw` the very first `loop` call is not a start-hold frame: it draws
at -1 (not at the start position 0), leaves `delayCount` at 0 (consuming no
hold frame), and advances `scrollIndex` from 1 to 2. -/
theorem scrollLoop_after_initial_draw_skips_hold :
    scrollLoop 64 (scrollDraw ⟨0, 0, "sample", -1, 0, 2, 0, 0, 0, 1, none, 20⟩).1
      = .ok (⟨0, 0, "sample", -1, 0, 2, 0, 2, 0, 1, some 20, 20⟩, [-1])
    ∧ ((-1 : ℚ) ≠ ((0 : Int) : ℚ)) := by
  constructor
  · norm_num [scrollLoop, scrollDraw, holdWindowE, scrollAdvance, onceTest, getLenE,
      modeONCE, modeLOOP, modeBOUNCE, Except.map]
  · norm_num

/-- C2 witness: the start-hold characterisation applied to a concrete state
with `scrollIndex = 0`, rate -1 and `delayCount = 0 < 2 = delayFrames`. -/
theorem scrollLoop_start_hold_only_at_index_zero_witness :
    scrollLoop 64 ⟨0, 0, "sample", -1, 0, 2, 0, 0, 0, 1, none, 20⟩
      = .ok ({(⟨0, 0, "sample", -1, 0, 2, 0, 0, 0, 1, none, 20⟩ : ScrollState) with
                delay_count := 0 + 1}, [((0 : Int) : ℚ)]) :=
  scrollLoop_start_hold_only_at_index_zero 64 _ (by norm_num) rfl (by decide)

/-- C4 (amended): with rate 0 every `loop` call draws once at the static
anchor and leaves `delayCount` and `directionMult` unchanged, but — contrary
to "no state change" — it delegates to `draw`, which increments `scrollIndex`
by one (and re-records the measured length) on every call. -/
theorem scrollLoop_rate_zero_draws_at_anchor (W : Int) (st : ScrollState)
    (hrate : st.rate = 0) :
    scrollLoop W st
      = .ok ({st with scroll_index := st.scroll_index + 1,
                      length := some st.measuredLen}, [(st.x : ℚ)]) := by
  simp [scrollLoop, scrollDraw, hrate]

/-- C4 counterexample: a rate-0 `loop` call draws at the anchor but does not
leave the animator state unchanged — `scrollIndex` moves from 3 to 4. -/
theorem scrollLoop_rate_zero_advances_index :
    scrollLoop 64 ⟨5, 0, "t", 0, 0, 0, 0, 3, 0, 1, none, 12⟩
      = .ok (⟨5, 0, "t", 0, 0, 0, 0, 3 + 1, 0, 1, some 12, 12⟩, [(5 : ℚ)])
    ∧ ((3 : ℚ) + 1 ≠ (3 : ℚ)) := by
  constructor
  · norm_num [scrollLoop, scrollDraw]
  · norm_num

/-- C4 witness: the rate-0 characterisation applied to a concrete state. -/
theorem scrollLoop_rate_zero_draws_at_anchor_witness :
    scrollLoop 64 ⟨5, 0, "t", 0, 0, 0, 0, 3, 0, 1, none, 12⟩
      = .ok ({(⟨5, 0, "t", 0, 0, 0, 0, 3, 0, 1, none, 12⟩ : ScrollState) with
                scroll_index := (3 : ℚ) + 1, length := some 12}, [((5 : Int) : ℚ)]) :=
  scrollLoop_rate_zero_draws_at_anchor 64 _ rfl

/-- C3 (amended): in ONCE mode with negative rate, at the call where the
text has fully left the display (`newPos + length < 0`, its rightmost pixel
negative) the animator draws that final off-screen frame, forces
`scroll_index` to `canvasWidth / rate`, and advances it by `direction_mult`;
with `direction_mult = 1` the next call therefore draws at
`x + canvasWidth + rate` — the text re-enters at the right edge and scrolls
across again instead of staying frozen at the left boundary (freezing occurs
only for positive rates). -/
theorem scrollLoop_once_negative_rate_reenters (W : Int) (st : ScrollState) (L : Int)
    (hmode : st.mode = 0) (hrate : st.rate < 0) (hidx : st.scroll_index ≠ 0)
    (hlen : st.length = some L)
    (hexit : (st.x : ℚ) + st.rate * st.scroll_index + (L : ℚ) < 0) :
    scrollLoop W st
      = .ok ({st with delay_count := 0,
                      scroll_index := (W : ℚ) / st.rate + (st.direction_mult : ℚ)},
             [(st.x : ℚ) + st.rate * st.scroll_index]) := by
  have hr0 : st.rate ≠ 0 := ne_of_lt hrate
  simp [scrollLoop, holdWindowE, scrollAdvance, onceTest, getLenE, hr0, hidx, hmode,
    hrate, hlen, modeONCE, modeBOUNCE, Except.map, hexit]

/-- C3 counterexample: ONCE mode, rate -2, measured length 20, canvas width
64, starting from the caller's single initial `draw`.  Call 11 draws at -22
(rightmost pixel -3 < 0, the text has left the display), but call 12 draws
at 62 — far to the *right* and back at the canvas edge — so subsequent calls
do not keep the text at the left boundary. -/
theorem scroll_once_not_frozen_at_left_boundary :
    drawsAtCall 64 10 (scrollDraw ⟨0, 0, "sample", -2, 0, 0, 0, 0, 0, 1, none, 20⟩).1 = [-22]
    ∧ ((-22 : ℚ) + 20 - 1 < 0)
    ∧ drawsAtCall 64 11 (scrollDraw ⟨0, 0, "sample", -2, 0, 0, 0, 0, 0, 1, none, 20⟩).1 = [62]
    ∧ ¬((62 : ℚ) + 20 - 1 < 0)
    ∧ ((-22 : ℚ) < 62) := by
  refine ⟨?_, by norm_num, ?_, by norm_num, by norm_num⟩
  · norm_num [drawsAtCall, scrollIter, scrollLoop, scrollAdvance, holdWindowE,
      onceTest, getLenE, scrollDraw, modeONCE, modeLOOP, modeBOUNCE, Except.map]
  · norm_num [drawsAtCall, scrollIter, scrollLoop, scrollAdvance, holdWindowE,
      onceTest, getLenE, scrollDraw, modeONCE, modeLOOP, modeBOUNCE, Except.map]

/-- C3 witness: the exit-call characterisation applied to the concrete state
reached just before call 11 of the counterexample's scenario. -/
theorem scrollLoop_once_negative_rate_reenters_witness :
    scrollLoop 64 ⟨0, 0, "sample", -2, 0, 0, 0, 11, 0, 1, some 20, 20⟩
      = .ok ({(⟨0, 0, "sample", -2, 0, 0, 0, 11, 0, 1, some 20, 20⟩ : ScrollState) with
                delay_count := 0,
                scroll_index := ((64 : Int) : ℚ) / (-2) + ((1 : Int) : ℚ)},
             [((0 : Int) : ℚ) + (-2) * 11]) :=
  scrollLoop_once_negative_rate_reenters 64 _ 20 rfl (by norm_num) (by norm_num) rfl
    (by norm_num)

/-- C6 counterexample: with a constant-advance font (4px per character), a
right-aligned Text built at x 10 with content "AB" stores x = 2; after the
content is mutated to "A", `draw` still draws at the stale x = 2 and does not
recompute the alignment, whereas the specified re-aligning draw would draw at
10 - 4 = 6. -/
theorem textDraw_uses_stale_alignment :
    textDraw (fun _ => (4 : Int))
        { mkText (fun _ => (4 : Int)) 10 0 "AB" true with text := "A" } = (2, 4)
    ∧ textDrawSpecRealign (fun _ => (4 : Int))
        { mkText (fun _ => (4 : Int)) 10 0 "AB" true with text := "A" } = (6, 4)
    ∧ (((2 : Int), (4 : Int)) ≠ ((6 : Int), (4 : Int))) := by
  refine ⟨by decide, by decide, by decide⟩

/-- C6 (amended): `Text.draw` draws at the stored x and returns the total
rendered pixel length; the right-aligned recomputation
`x = original_x - Σ(character_advance)` lives in `adjustAlignment`, which
runs at construction and is invoked by consumers before drawing — in
particular `DateTimeDisplay.loop` re-aligns after refreshing the content, so
a clock tick draws at the freshly recomputed position and returns the new
content's advance sum.  A bare `draw` after an external content mutation
does not re-align. -/
theorem dtdLoop_realigns_every_tick (cw : Char → Int) (newText : String)
    (st : TextState) (h : st.right_aligned = true) :
    (dtdLoop cw newText st).2
      = (st.x_og - textWidth cw newText, textWidth cw newText) := by
  simp [dtdLoop, adjustAlignment, textDraw, h]

/-- C6 witness: the re-alignment theorem applied to a concrete right-aligned
clock state whose content changes from "AB" to "A". -/
theorem dtdLoop_realigns_every_tick_witness :
    (dtdLoop (fun _ => (4 : Int)) "A" ⟨10, 2, 0, "AB", true⟩).2
      = ((10 : Int) - textWidth (fun _ => (4 : Int)) "A",
         textWidth (fun _ => (4 : Int)) "A") :=
  dtdLoop_realigns_every_tick (fun _ => (4 : Int)) "A" ⟨10, 2, 0, "AB", true⟩ rfl

/-- C9 counterexample: for a vertical 3-pixel-wide line at x = 10, the source
offsets the stroke iterations by `wt * (-1) ** wt`, drawing columns
10, 9, 12 — pixel (12, 0) included — while the specified `⌈wt/2⌉` alternation
would draw columns 10, 9, 11 and never touch column 12. -/
theorem lineDraw_vertical_offsets_differ_from_spec :
    ((12 : Int), (0 : Int)) ∈ lineDraw ⟨10, 0, 10, 5, (255, 255, 255), 3⟩
    ∧ ((12 : Int), (0 : Int)) ∉ lineDrawSpecVertical ⟨10, 0, 10, 5, (255, 255, 255), 3⟩
    ∧ lineDraw ⟨10, 0, 10, 5, (255, 255, 255), 3⟩
        ≠ lineDrawSpecVertical ⟨10, 0, 10, 5, (255, 255, 255), 3⟩ := by
  refine ⟨by decide, by decide, by decide⟩

/-- C9 (amended): a vertical line (equal start and end x) draws without any
error — the division by zero is caught and handled by the explicit vertical
branch — which steps y over the clamped range [max(0, y0), min(33, y1)) and,
for stroke iteration wt, offsets the column by `wt * (-1) ** wt`
(0, -1, +2, -3, ...), not by `⌈wt/2⌉` alternating. -/
theorem lineDraw_vertical_branch (st : LineState) (h : st.x0 = st.x1) (p : Pt) :
    p ∈ lineDraw st ↔
      ∃ wt : Nat, wt < st.stroke_weight.toNat
        ∧ p.1 = st.x0 + (wt : Int) * altSign wt
        ∧ max 0 st.y0 ≤ p.2 ∧ p.2 < min 33 st.y1 := by
  have h0 : st.x1 - st.x0 = 0 := by omega
  obtain ⟨a, b⟩ := p
  rw [lineDraw, if_pos h0]
  simp only [List.mem_flatMap, List.mem_map, List.mem_range, mem_rangeInt,
    Prod.mk.injEq]
  constructor
  · rintro ⟨wt, hwt, y, hy, he1, he2⟩
    exact ⟨wt, hwt, he1.symm, he2 ▸ hy.1, he2 ▸ hy.2⟩
  · rintro ⟨wt, hwt, hpa, h1, h2⟩
    exact ⟨wt, hwt, b, ⟨h1, h2⟩, hpa.symm, rfl⟩

/-- C9 witness: the vertical-branch characterisation applied to a concrete
weight-2 vertical line, exhibiting the pixel of stroke iteration 1. -/
theorem lineDraw_vertical_branch_witness :
    ((6 : Int), (2 : Int)) ∈ lineDraw ⟨7, 1, 7, 4, (255, 255, 255), 2⟩ :=
  (lineDraw_vertical_branch ⟨7, 1, 7, 4, (255, 255, 255), 2⟩ rfl ((6 : Int), (2 : Int))).mpr
    ⟨1, by decide, by decide, by decide, by decide⟩

/-- C10: a `TickerText` constructed with exactly one message raises
`IndexError` on its first `draw`: the assignment
`msg_x[1] = msg_x[0] + msg_len[0] + spacing` writes the second entry of an
array that `__init__` sized as `[0] * len(messages)` — one entry. -/
theorem tickerDraw_single_message_raises (x y : Int) (m : String) (rate : ℚ)
    (spacing ml : Int) (wrap : Bool) (st : TickerState)
    (h : mkTickerText x y [m] rate spacing ml wrap = .ok st) :
    tickerDraw st = .error "IndexError" := by
  simp only [mkTickerText] at h
  injection h with h
  subst h
  norm_num [tickerDraw, tickerSuperDraw, setAtE, getAtE]

/-- C10 witness: the single-message raise applied to the ticker built from
`["hi"]`. -/
theorem tickerDraw_single_message_raises_witness :
    tickerDraw { x := 0, y := 0, rate := -1, spacing := 0, scroll_index := 0,
                 length := none, measuredLen := 12, messages := ["hi"],
                 msg_index := 0, msg_x := List.replicate 1 0,
                 msg_len := List.replicate 1 0, wrap := true,
                 first_idx := 0, last_idx := 0 } = .error "IndexError" :=
  tickerDraw_single_message_raises 0 0 "hi" (-1) 0 12 true _ rfl
